import Mathlib

/-!
Shallow embedding of two Jetpack client components:

* `_inc/client/recommendations/prompts/resource-prompt/index.jsx`
  (the Resource Prompt view: its mount/update effect and its four click
  handlers), and
* `extensions/blocks/ai-assistant/ai-control.js`
  (the AI Assistant control: `AIControl`, `ToolbarControls`,
  `toggleAIType`, `handleInputEnter`).

Rendering is modelled as pure functions from the components' props to the
list of rendered controls; event handlers are modelled as functions from
their inputs to the list of commands they dispatch, in dispatch order.
-/

namespace Jetpack

/-! ### Resource Prompt (resource-prompt/index.jsx) -/

/-- A command dispatched by the Resource Prompt mount/update effect
(`updateRecommendationsStep` or `addViewedRecommendation`), carrying the
slug it was called with. -/
inductive StepEffect where
  | updateRecommendationsStep (slug : String)
  | addViewedRecommendation (slug : String)
  deriving DecidableEq, Repr

/-- The body of the `useEffect` at lines 59-73 of index.jsx: if the step
slug differs from the tracked slug, dispatch `updateRecommendationsStep`;
else if they are equal and no update is in flight, dispatch
`addViewedRecommendation`; else do nothing. Returns the dispatched
commands in order. -/
def resourcePromptStepEffect (stepSlug stateStepSlug : String)
    (updatingStep : Bool) : List StepEffect :=
  if stepSlug ≠ stateStepSlug then
    [StepEffect.updateRecommendationsStep stepSlug]
  else if stepSlug = stateStepSlug ∧ updatingStep = false then
    [StepEffect.addViewedRecommendation stepSlug]
  else
    []

/-- An observable action of a Resource Prompt click handler: an analytics
`recordEvent` call (event name plus the `feature` metadata), or an
assignment to `window.location.href`. -/
inductive TrackAction where
  | recordEvent (eventName : String) (feature : String)
  | navigate (href : String)
  deriving DecidableEq, Repr

/-- Whether a `TrackAction` is an analytics `recordEvent` call. -/
def TrackAction.isRecordEvent : TrackAction → Bool
  | TrackAction.recordEvent _ _ => true
  | TrackAction.navigate _ => false

/-- The `onExternalLinkClick` handler: records one analytics event tagged
with the step slug. -/
def onExternalLinkClick (stepSlug : String) : List TrackAction :=
  [TrackAction.recordEvent "jetpack_recommended_resource_learn_more_click" stepSlug]

/-- The `onResourceLinkClick` handler: records one analytics event tagged
with the step slug, then navigates to `nextRoute`. -/
def onResourceLinkClick (stepSlug nextRoute : String) : List TrackAction :=
  [TrackAction.recordEvent "jetpack_recommended_resource_read_click" stepSlug,
   TrackAction.navigate nextRoute]

/-- The `onResourceSkipClick` handler: records one analytics event tagged
with the step slug. -/
def onResourceSkipClick (stepSlug : String) : List TrackAction :=
  [TrackAction.recordEvent "jetpack_recommended_resource_skip_click" stepSlug]

/-- The `onBackToSummaryClick` handler: records one analytics event tagged
with the step slug. -/
def onBackToSummaryClick (stepSlug : String) : List TrackAction :=
  [TrackAction.recordEvent "jetpack_recommended_resource_back_to_summary_click" stepSlug]

/-! ### AI Assistant control (ai-assistant/ai-control.js) -/

/-- The `toggleAIType` closure of `AIControl`, seen as the value it passes
to `setAiType`: if the current `aiType` is `"text"` it sets `"image"`,
otherwise it sets `"text"`. -/
def toggleAIType (aiType : String) : String :=
  if aiType = "text" then "image" else "text"

/-- A command dispatched by the AI Assistant control through one of its
callback props. -/
inductive AIAction where
  | getSuggestionFromOpenAI (variant : String)
  | handleGetSuggestion
  | handleAcceptContent
  | setAiType (aiType : String)
  | setUserPrompt (value : String)
  deriving DecidableEq, Repr

/-- An identifier for each control that `ToolbarControls` can render. -/
inductive Control where
  | done
  | continueWriting
  | suggestionDropdown
  | retry
  | toggleToImage
  | toggleToWrite
  deriving DecidableEq, Repr

/-- The props of `ToolbarControls` that determine which controls render
(the callback props are modelled separately by `controlOnClick`). -/
structure ToolbarProps where
  aiType : String
  animationDone : Bool
  contentIsLoaded : Bool
  showRetry : Bool
  deriving DecidableEq, Repr

/-- The render body of `ToolbarControls` (ai-control.js lines 94-154), as
the list of rendered controls in document order. The first group renders
only when `aiType === 'text'` and holds Done, Continue writing, the
suggestion dropdown, and Retry, each behind its own condition; the second
group renders when `!showRetry && !contentIsLoaded` and holds the
mode-toggle button for the current mode. -/
def ToolbarControls (p : ToolbarProps) : List Control :=
  (if p.aiType = "text" then
      (if p.showRetry = false ∧ p.contentIsLoaded = true ∧ p.animationDone = true then
        [Control.done] else [])
      ++ (if p.showRetry = false ∧ p.contentIsLoaded = false then
        [Control.continueWriting] else [])
      ++ (if p.showRetry = false ∧ p.contentIsLoaded = false then
        [Control.suggestionDropdown] else [])
      ++ (if p.showRetry = true then [Control.retry] else [])
    else [])
  ++ (if p.showRetry = false ∧ p.contentIsLoaded = false then
      (if p.aiType = "text" then [Control.toggleToImage] else [])
      ++ (if p.aiType = "image" then [Control.toggleToWrite] else [])
    else [])

/-- The command wired to each control's `onClick`, given the current
`aiType` (the dropdown has no single `onClick`; its entries are modelled
by `suggestionDropdownEntries`). -/
def controlOnClick (aiType : String) : Control → Option AIAction
  | Control.done => some AIAction.handleAcceptContent
  | Control.continueWriting => some (AIAction.getSuggestionFromOpenAI "continue")
  | Control.suggestionDropdown => none
  | Control.retry => some AIAction.handleGetSuggestion
  | Control.toggleToImage => some (AIAction.setAiType (toggleAIType aiType))
  | Control.toggleToWrite => some (AIAction.setAiType (toggleAIType aiType))

/-- The label of each control as rendered (the dropdown's `label` prop is
`"More"`). -/
def controlLabel : Control → String
  | Control.done => "Done"
  | Control.continueWriting => "Continue writing"
  | Control.suggestionDropdown => "More"
  | Control.retry => "Retry"
  | Control.toggleToImage => "Ask AI for an image"
  | Control.toggleToWrite => "Ask AI to write"

/-- The icon of each control as rendered (the dropdown has none). -/
def controlIcon : Control → Option String
  | Control.done => some "check"
  | Control.continueWriting => some "pencil"
  | Control.suggestionDropdown => none
  | Control.retry => some "update"
  | Control.toggleToImage => some "image"
  | Control.toggleToWrite => some "pencil"

/-- One entry of the suggestion dropdown: its title and the command its
`onClick` dispatches. -/
structure DropdownEntry where
  title : String
  onClick : AIAction
  deriving DecidableEq, Repr

/-- The `controls` array passed to the suggestion dropdown (ai-control.js
lines 114-127), in order. -/
def suggestionDropdownEntries : List DropdownEntry :=
  [⟨"Summarize", AIAction.getSuggestionFromOpenAI "summarize"⟩,
   ⟨"Write a summary based on title", AIAction.getSuggestionFromOpenAI "titleSummary"⟩,
   ⟨"Expand on preceding content", AIAction.getSuggestionFromOpenAI "continue"⟩]

/-- The props of `AIControl` that determine what renders. `content` is
only tested for truthiness (line 59), so it is modelled as that Boolean. -/
structure AIControlProps where
  aiType : String
  animationDone : Bool
  content : Bool
  contentIsLoaded : Bool
  isWaitingState : Bool
  loadingImages : Bool
  showRetry : Bool
  deriving DecidableEq, Repr

/-- Whether `AIControl` renders the `ToolbarControls` block at all
(line 46: `! isWaitingState && <ToolbarControls .../>`). -/
def AIControl.toolbarRendered (p : AIControlProps) : Bool :=
  !p.isWaitingState

/-- The toolbar controls `AIControl` renders: the `ToolbarControls` list
when the block renders, nothing otherwise. -/
def AIControl.renderedControls (p : AIControlProps) : List Control :=
  if p.isWaitingState = false then
    ToolbarControls ⟨p.aiType, p.animationDone, p.contentIsLoaded, p.showRetry⟩
  else []

/-- Whether `AIControl` renders the `Loading` indicator (line 59:
`( ( ! content && isWaitingState ) || loadingImages ) && <Loading />`). -/
def AIControl.loadingRendered (p : AIControlProps) : Bool :=
  (!p.content && p.isWaitingState) || p.loadingImages

/-- The `disabled` prop of the submit arrow button (line 71). -/
def AIControl.submitDisabled (p : AIControlProps) : Bool :=
  p.isWaitingState

/-- A keyboard event as `handleInputEnter` inspects it. -/
structure KeyEvent where
  key : String
  shiftKey : Bool
  deriving DecidableEq, Repr

/-- The `handleInputEnter` closure (lines 29-34): on Enter without Shift
it prevents the default and calls `handleGetSuggestion`; otherwise it does
nothing. Returns the dispatched commands. -/
def handleInputEnter (ev : KeyEvent) : List AIAction :=
  if ev.key = "Enter" ∧ ev.shiftKey = false then
    [AIAction.handleGetSuggestion]
  else []

/-- The `onKeyPress` handler of the prompt textarea: `AIControl` wires
`handleInputEnter` unconditionally, independent of its props. -/
def AIControl.onInputKeyPress (_p : AIControlProps) (ev : KeyEvent) : List AIAction :=
  handleInputEnter ev

/-! ### Theorems -/

/-- C1: for every `(stepSlug, stateStepSlug, updatingStep)` the Resource
Prompt mount/update effect issues exactly one of no-op, the update-step
command, or the viewed command: the update-step command (with argument
`stepSlug`) fires iff the slugs differ, the viewed command (with argument
`stepSlug`) fires iff the slugs agree and `updatingStep` is false, and
otherwise nothing fires; never more than one command per evaluation. -/
theorem resourcePromptStepEffect_exclusive (stepSlug stateStepSlug : String)
    (updatingStep : Bool) :
    (resourcePromptStepEffect stepSlug stateStepSlug updatingStep).length ≤ 1
    ∧ (resourcePromptStepEffect stepSlug stateStepSlug updatingStep
        = [StepEffect.updateRecommendationsStep stepSlug] ↔ stepSlug ≠ stateStepSlug)
    ∧ (resourcePromptStepEffect stepSlug stateStepSlug updatingStep
        = [StepEffect.addViewedRecommendation stepSlug]
        ↔ stepSlug = stateStepSlug ∧ updatingStep = false)
    ∧ (resourcePromptStepEffect stepSlug stateStepSlug updatingStep = []
        ↔ stepSlug = stateStepSlug ∧ updatingStep = true) := by
  unfold resourcePromptStepEffect
  by_cases h : stepSlug = stateStepSlug
  · subst h
    cases updatingStep <;> simp
  · simp [h]

/-- C4: each Resource Prompt click handler records exactly one analytics
event per invocation, tagged with the current `stepSlug` as its `feature`
metadata; the resource-link handler records the event before navigating to
`nextRoute` (the event is first in its action list). -/
theorem resourcePromptClickHandlers_single_event (stepSlug nextRoute : String) :
    ((onExternalLinkClick stepSlug).countP TrackAction.isRecordEvent = 1
      ∧ onExternalLinkClick stepSlug
        = [TrackAction.recordEvent "jetpack_recommended_resource_learn_more_click" stepSlug])
    ∧ ((onResourceLinkClick stepSlug nextRoute).countP TrackAction.isRecordEvent = 1
      ∧ onResourceLinkClick stepSlug nextRoute
        = [TrackAction.recordEvent "jetpack_recommended_resource_read_click" stepSlug,
           TrackAction.navigate nextRoute])
    ∧ ((onResourceSkipClick stepSlug).countP TrackAction.isRecordEvent = 1
      ∧ onResourceSkipClick stepSlug
        = [TrackAction.recordEvent "jetpack_recommended_resource_skip_click" stepSlug])
    ∧ ((onBackToSummaryClick stepSlug).countP TrackAction.isRecordEvent = 1
      ∧ onBackToSummaryClick stepSlug
        = [TrackAction.recordEvent "jetpack_recommended_resource_back_to_summary_click" stepSlug]) := by
  simp [onExternalLinkClick, onResourceLinkClick, onResourceSkipClick,
    onBackToSummaryClick, List.countP, List.countP.go, TrackAction.isRecordEvent]

/-- Applying `toggleAIType` twice to a mode in `{text, image}` returns the
original mode. -/
theorem toggleAIType_two (aiType : String)
    (h : aiType = "text" ∨ aiType = "image") :
    toggleAIType (toggleAIType aiType) = aiType := by
  rcases h with h | h <;> subst h <;> rfl

/-- C5: the mode toggle maps `"text"` to `"image"` and `"image"` to
`"text"` with no intermediate state, it is an involution on the two modes,
and applying it an even number of times returns the original mode. -/
theorem toggleAIType_involution (aiType : String) (n : ℕ)
    (h : aiType = "text" ∨ aiType = "image") :
    toggleAIType "text" = "image"
    ∧ toggleAIType "image" = "text"
    ∧ toggleAIType (toggleAIType aiType) = aiType
    ∧ toggleAIType^[2 * n] aiType = aiType := by
  refine ⟨rfl, rfl, toggleAIType_two aiType h, ?_⟩
  induction n with
  | zero => rfl
  | succ k ih =>
      have h2 : 2 * (k + 1) = 2 * k + 2 := by ring
      rw [h2, Function.iterate_add_apply]
      have h3 : toggleAIType^[2] aiType = aiType := toggleAIType_two aiType h
      rw [h3, ih]

/-- Witness for C5 at `aiType = "text"`, `n = 3`. -/
theorem toggleAIType_involution_witness :
    toggleAIType "text" = "image"
    ∧ toggleAIType "image" = "text"
    ∧ toggleAIType (toggleAIType "text") = "text"
    ∧ toggleAIType^[2 * 3] "text" = "text" :=
  toggleAIType_involution "text" 3 (Or.inl rfl)

/-- C9: pressing Enter without Shift in the prompt input dispatches
`handleGetSuggestion` even while `isWaitingState` is true (the keyboard
path is unguarded), although the submit arrow button is disabled in that
state. -/
theorem enter_bypasses_waiting (p : AIControlProps) (ev : KeyEvent)
    (hw : p.isWaitingState = true) (hk : ev.key = "Enter")
    (hs : ev.shiftKey = false) :
    AIControl.onInputKeyPress p ev = [AIAction.handleGetSuggestion]
    ∧ AIControl.submitDisabled p = true := by
  constructor
  · simp [AIControl.onInputKeyPress, handleInputEnter, hk, hs]
  · simp [AIControl.submitDisabled, hw]

/-- Witness for C9: a waiting state and an Enter-without-Shift event. -/
theorem enter_bypasses_waiting_witness :
    AIControl.onInputKeyPress ⟨"text", false, false, false, true, false, false⟩
      ⟨"Enter", false⟩ = [AIAction.handleGetSuggestion] :=
  (enter_bypasses_waiting ⟨"text", false, false, false, true, false, false⟩
    ⟨"Enter", false⟩ rfl rfl rfl).1

/-- C10: with `aiType = "text"`, `showRetry = false`,
`contentIsLoaded = true` and `animationDone = false`, and outside the
waiting state, the toolbar block renders but contains no control at all. -/
theorem empty_toolbar_state :
    ToolbarControls ⟨"text", false, true, false⟩ = []
    ∧ AIControl.renderedControls ⟨"text", false, true, true, false, false, false⟩ = []
    ∧ AIControl.toolbarRendered ⟨"text", false, true, true, false, false, false⟩ = true := by
  refine ⟨?_, ?_, rfl⟩ <;> decide

/-- C2 counterexample: with `aiType = "image"` and `showRetry = true`, no
Retry control is rendered (the Retry button lives inside the
`aiType === 'text'` group), refuting the claim that for every mode in
`{text, image}` the toolbar shows a Retry control when `showRetry` is
true. -/
theorem retry_in_image_mode_counterexample :
    ToolbarControls ⟨"image", true, true, true⟩ = []
    ∧ Control.retry ∉ ToolbarControls ⟨"image", true, true, true⟩ := by
  refine ⟨?_, ?_⟩ <;> decide

/-- C2 (amended): when `showRetry` is true no control other than Retry is
rendered in any mode; in text mode the toolbar shows exactly the Retry
control, while in image mode (and any other mode) it shows no control at
all. -/
theorem retry_excludes_other_controls (p : ToolbarProps)
    (h : p.showRetry = true) :
    (∀ c ∈ ToolbarControls p, c = Control.retry)
    ∧ (p.aiType = "text" → ToolbarControls p = [Control.retry])
    ∧ (p.aiType ≠ "text" → ToolbarControls p = []) := by
  obtain ⟨a, ad, cl, sr⟩ := p
  subst h
  by_cases ht : a = "text" <;> simp [ToolbarControls, ht]

/-- Witness for C2 (amended) at `aiType = "text"`, `showRetry = true`. -/
theorem retry_excludes_other_controls_witness :
    ToolbarControls ⟨"text", false, false, true⟩ = [Control.retry] :=
  (retry_excludes_other_controls ⟨"text", false, false, true⟩ rfl).2.1 rfl

/-- C3 counterexample: with `isWaitingState = true` but nonempty content
and `loadingImages = false`, the toolbar is absent yet no loading
indicator is rendered either, refuting the claim that the indicator is
present for every combination of the remaining inputs. -/
theorem waiting_without_loading_counterexample :
    (⟨"text", false, true, true, true, false, false⟩ : AIControlProps).isWaitingState = true
    ∧ AIControl.loadingRendered ⟨"text", false, true, true, true, false, false⟩ = false
    ∧ AIControl.toolbarRendered ⟨"text", false, true, true, true, false, false⟩ = false := by
  refine ⟨rfl, ?_, ?_⟩ <;> decide

/-- C3 (amended): when `isWaitingState` is true the toolbar controls are
absent; the loading indicator is present iff, in addition, the content is
empty or `loadingImages` is true. -/
theorem waiting_hides_toolbar (p : AIControlProps)
    (h : p.isWaitingState = true) :
    AIControl.renderedControls p = []
    ∧ AIControl.toolbarRendered p = false
    ∧ (AIControl.loadingRendered p = true
        ↔ p.content = false ∨ p.loadingImages = true) := by
  refine ⟨?_, ?_, ?_⟩
  · simp [AIControl.renderedControls, h]
  · simp [AIControl.toolbarRendered, h]
  · cases hc : p.content <;> cases hl : p.loadingImages <;>
      simp [AIControl.loadingRendered, h, hc, hl]

/-- Witness for C3 (amended) in a waiting state with empty content. -/
theorem waiting_hides_toolbar_witness :
    AIControl.renderedControls ⟨"text", false, false, false, true, false, false⟩ = [] :=
  (waiting_hides_toolbar ⟨"text", false, false, false, true, false, false⟩ rfl).1

/-- C6: the Done control is rendered iff `showRetry` is false, the mode is
text, `contentIsLoaded` is true and `animationDone` is true; its click
dispatches the accept-content command. -/
theorem done_control_conditions (p : ToolbarProps) :
    (Control.done ∈ ToolbarControls p
      ↔ p.showRetry = false ∧ p.aiType = "text"
        ∧ p.contentIsLoaded = true ∧ p.animationDone = true)
    ∧ controlOnClick p.aiType Control.done = some AIAction.handleAcceptContent := by
  obtain ⟨a, ad, cl, sr⟩ := p
  refine ⟨?_, rfl⟩
  by_cases ht : a = "text"
  · subst ht
    cases ad <;> cases cl <;> cases sr <;> decide
  · by_cases hi : a = "image"
    · subst hi
      cases ad <;> cases cl <;> cases sr <;> decide
    · cases ad <;> cases cl <;> cases sr <;> simp [ToolbarControls, ht, hi]

/-- C7: with `showRetry` false, text mode, and no loaded content, the
toolbar shows a Continue writing control that requests the `continue`
variant, together with a dropdown offering exactly the three variants
`summarize`, `titleSummary` and `continue`, each dispatching the
get-suggestion command with that variant. -/
theorem continue_and_dropdown (p : ToolbarProps)
    (h : p.showRetry = false ∧ p.aiType = "text" ∧ p.contentIsLoaded = false) :
    Control.continueWriting ∈ ToolbarControls p
    ∧ Control.suggestionDropdown ∈ ToolbarControls p
    ∧ controlOnClick p.aiType Control.continueWriting
        = some (AIAction.getSuggestionFromOpenAI "continue")
    ∧ suggestionDropdownEntries.map DropdownEntry.onClick
        = [AIAction.getSuggestionFromOpenAI "summarize",
           AIAction.getSuggestionFromOpenAI "titleSummary",
           AIAction.getSuggestionFromOpenAI "continue"] := by
  obtain ⟨a, ad, cl, sr⟩ := p
  obtain ⟨hsr, ha, hcl⟩ := h
  subst hsr; subst ha; subst hcl
  cases ad <;> decide

/-- Witness for C7 at `⟨"text", false, false, false⟩`. -/
theorem continue_and_dropdown_witness :
    Control.continueWriting ∈ ToolbarControls ⟨"text", false, false, false⟩ :=
  (continue_and_dropdown ⟨"text", false, false, false⟩ ⟨rfl, rfl, rfl⟩).1

/-- C8: for each mode in `{text, image}`, the mode-toggle control renders
iff `showRetry` is false and `contentIsLoaded` is false; its label and
icon are those of the opposite mode, and its click dispatches `setAiType`
with the opposite mode. -/
theorem mode_toggle_control (p : ToolbarProps)
    (h : p.aiType = "text" ∨ p.aiType = "image") :
    (p.aiType = "text" →
      (Control.toggleToImage ∈ ToolbarControls p
        ↔ p.showRetry = false ∧ p.contentIsLoaded = false)
      ∧ Control.toggleToWrite ∉ ToolbarControls p
      ∧ controlLabel Control.toggleToImage = "Ask AI for an image"
      ∧ controlIcon Control.toggleToImage = some "image"
      ∧ controlOnClick p.aiType Control.toggleToImage
          = some (AIAction.setAiType "image"))
    ∧ (p.aiType = "image" →
      (Control.toggleToWrite ∈ ToolbarControls p
        ↔ p.showRetry = false ∧ p.contentIsLoaded = false)
      ∧ Control.toggleToImage ∉ ToolbarControls p
      ∧ controlLabel Control.toggleToWrite = "Ask AI to write"
      ∧ controlIcon Control.toggleToWrite = some "pencil"
      ∧ controlOnClick p.aiType Control.toggleToWrite
          = some (AIAction.setAiType "text")) := by
  obtain ⟨a, ad, cl, sr⟩ := p
  rcases h with ha | ha <;> subst ha <;>
    cases ad <;> cases cl <;> cases sr <;> refine ⟨?_, ?_⟩ <;>
    intro hm <;> first
      | (exact absurd hm (by decide))
      | (refine ⟨?_, ?_, rfl, rfl, rfl⟩ <;> decide)

/-- Witness for C8 at `⟨"text", false, false, false⟩`. -/
theorem mode_toggle_control_witness :
    Control.toggleToImage ∈ ToolbarControls ⟨"text", false, false, false⟩ :=
  (((mode_toggle_control ⟨"text", false, false, false⟩ (Or.inl rfl)).1 rfl).1).mpr
    ⟨rfl, rfl⟩

end Jetpack
